import Mathlib

/-!
Verification development for the expo-audio / react-native-video conflict
reproduction app (variant 1: `App.tsx`, variant 2: the supabase upload screen).

The embedding models the pure helpers (`formatTime`, `normalizeAudioMimeType`)
and the recorder-screen state machine (`handleRecord`, `handleSave`,
`handleCancel`, the video toggle, and the playback auto-clear effect of
`RecordingItem`) as Lean functions over an explicit application state.
External asynchronous calls (audio-mode configuration, capture start/stop,
file fetch, the wall clock) are supplied through environment records whose
fields say whether each call throws and what it returns.

JavaScript numeric conventions used below:
`Math.round(d / 1000)` on a natural `d` is `(d + 500) / 1000` in natural
division (round half up), `Math.round(n / 1024)` is `(n + 512) / 1024`,
and `Math.floor(d / 1000)` is plain natural division `d / 1000`.
-/

namespace AVConflict

/-- `String.prototype.padStart(n, c)`: prepend copies of `c` until the length
is at least `n`; a string already long enough is returned unchanged. -/
def padStart (n : Nat) (c : Char) (s : String) : String :=
  String.mk (List.replicate (n - s.length) c) ++ s

/-- `formatTime` from `App.tsx` lines 37-41 (identical copy in the variant-2
file lines 49-53): minutes are `Math.floor(seconds / 60)`, seconds are
`seconds % 60`, both rendered with `padStart(2, "0")` around a colon. -/
def formatTime (seconds : Nat) : String :=
  let mins := seconds / 60
  let secs := seconds % 60
  padStart 2 '0' (toString mins) ++ ":" ++ padStart 2 '0' (toString secs)

/-- `normalizeAudioMimeType` from the variant-2 file lines 24-31: a
three-entry lookup table, falling back to the input itself when the input
is not a key (`mimeTypeMap[mimeType] || mimeType`). -/
def normalizeAudioMimeType (mimeType : String) : String :=
  if mimeType = "audio/x-m4a" then "audio/m4a"
  else if mimeType = "audio/x-wav" then "audio/wav"
  else if mimeType = "audio/vnd.wave" then "audio/wav"
  else mimeType

/-- The `Recording` record of `App.tsx` lines 43-48. -/
structure Recording where
  id : Nat
  uri : String
  duration : Nat
  fileSize : Nat
deriving Repr, DecidableEq

/-- The recorder state the controller observes through
`useAudioRecorderState`: the code reads only `durationMillis`
(`undefined` is `none`) and `isRecording`; `uri` is the output handle
read from `audioRecorder.uri` after a stop. -/
structure RecorderState where
  durationMillis : Option Nat
  isRecording : Bool
  uri : Option String
deriving Repr, DecidableEq

/-- The React state of the recorder screen (`App.tsx` lines 51-56):
the video toggle, the saved-recordings list (most recent first), the
active playback id, and the external recorder's observable state. -/
structure AppState where
  videoEnabled : Bool
  recordings : List Recording
  playingId : Option Nat
  recorder : RecorderState
deriving Repr, DecidableEq

/-- A modal alert: title and message, as passed to `Alert.alert`. -/
structure AlertMsg where
  title : String
  message : String
deriving Repr, DecidableEq

/-- `error.message || fallback`: an empty message string is falsy in
JavaScript, so the fallback replaces it. -/
def errOr (msg fallback : String) : String :=
  if msg = "" then fallback else msg

/-- Outcomes of the awaited external calls inside `handleRecord`: for each
call, `some msg` means the call throws with message `msg`, `none` means it
succeeds. -/
structure RecordEnv where
  setModeErr : Option String
  prepareErr : Option String
  recordErr : Option String
  pauseErr : Option String
deriving Repr, DecidableEq

/-- The start branch of `handleRecord`: `setAudioModeAsync`,
`prepareToRecordAsync`, `record()`, each of which may throw into the
surrounding catch; on success capture begins with the counter at zero. -/
def startRecording (s : AppState) (env : RecordEnv) : AppState × List AlertMsg :=
  match env.setModeErr with
  | some msg => (s, [⟨"Recording failed", errOr msg "Could not record"⟩])
  | none =>
    match env.prepareErr with
    | some msg => (s, [⟨"Recording failed", errOr msg "Could not record"⟩])
    | none =>
      match env.recordErr with
      | some msg => (s, [⟨"Recording failed", errOr msg "Could not record"⟩])
      | none =>
        ({ s with recorder :=
            { s.recorder with isRecording := true, durationMillis := some 0 } }, [])

/-- `handleRecord` from `App.tsx` lines 75-110 (identical logic in the
variant-2 file lines 126-161). Branch on `durationMillis` being
`undefined` or `0`: start a new recording (configure audio mode, prepare,
record); else pause when recording, resume otherwise. Every thrown error
is caught and surfaced as a "Recording failed" alert. -/
def handleRecord (s : AppState) (env : RecordEnv) : AppState × List AlertMsg :=
  match s.recorder.durationMillis with
  | none => startRecording s env
  | some 0 => startRecording s env
  | some (_ + 1) =>
    if s.recorder.isRecording then
      match env.pauseErr with
      | some msg => (s, [⟨"Recording failed", errOr msg "Could not record"⟩])
      | none => ({ s with recorder := { s.recorder with isRecording := false } }, [])
    else
      match env.recordErr with
      | some msg => (s, [⟨"Recording failed", errOr msg "Could not record"⟩])
      | none => ({ s with recorder := { s.recorder with isRecording := true } }, [])

/-- Outcomes of the awaited external calls inside `handleSave`:
whether `stop()` throws, the value of `audioRecorder.uri` after the stop,
whether the file fetch throws, the blob size in bytes, and the value
`Date.now()` returns at record creation. -/
structure SaveEnv where
  stopErr : Option String
  uriAfterStop : Option String
  fetchErr : Option String
  blobSize : Nat
  now : Nat
deriving Repr, DecidableEq

/-- `handleSave` from `App.tsx` lines 113-148. Guard: `undefined` or `0`
elapsed duration alerts "No recording" and returns untouched. Otherwise
stop, read the uri (missing uri alerts and leaves the already-stopped
capture as is), fetch the file for its size, and prepend a `Recording`
with `id = Date.now()`, `duration = Math.round(durationMillis / 1000)`
and `fileSize = Math.round(blob.size / 1024)`. -/
def handleSave (s : AppState) (env : SaveEnv) : AppState × List AlertMsg :=
  match s.recorder.durationMillis with
  | none => (s, [⟨"No recording", "Please record something first"⟩])
  | some 0 => (s, [⟨"No recording", "Please record something first"⟩])
  | some (d + 1) =>
    match env.stopErr with
    | some msg => (s, [⟨"Error", errOr msg "Failed to save recording"⟩])
    | none =>
      let stopped : AppState :=
        { s with recorder :=
            { s.recorder with isRecording := false, durationMillis := some 0,
                              uri := env.uriAfterStop } }
      match env.uriAfterStop with
      | none => (stopped, [⟨"Error", "No recording URI found"⟩])
      | some u =>
        match env.fetchErr with
        | some msg => (stopped, [⟨"Error", errOr msg "Failed to save recording"⟩])
        | none =>
          let newRecording : Recording :=
            { id := env.now, uri := u,
              duration := (d + 1 + 500) / 1000,
              fileSize := (env.blobSize + 512) / 1024 }
          ({ stopped with recordings := newRecording :: stopped.recordings }, [])

/-- `handleCancel` from `App.tsx` lines 151-155: stop the capture when the
elapsed duration is truthy and positive, otherwise do nothing; no alert in
either case. -/
def handleCancel (s : AppState) : AppState × List AlertMsg :=
  match s.recorder.durationMillis with
  | some (_ + 1) =>
    ({ s with recorder :=
        { s.recorder with isRecording := false, durationMillis := some 0 } }, [])
  | _ => (s, [])

/-- The `RecordingItem` completion effect, `App.tsx` lines 314-318: when the
item is marked playing and `player.duration > 0` and
`player.currentTime >= player.duration`, `onStop()` fires and the active
playing id becomes `null`; otherwise the id is untouched. -/
def playbackAutoClear (isPlaying : Bool) (duration currentTime : ℚ)
    (playingId : Option Nat) : Option Nat :=
  if isPlaying = true ∧ 0 < duration ∧ duration ≤ currentTime then none
  else playingId

/-- The user-visible operations of the recorder screen, each carrying the
environment record its external calls need. `tick` is the external
recorder's duration counter advancing, `playbackEnd` is the
`RecordingItem` effect re-running with the player's current time and
duration. -/
inductive AppOp where
  | doRecord (env : RecordEnv)
  | doSave (env : SaveEnv)
  | doCancel
  | toggleVideo (b : Bool)
  | doPlay (id : Nat)
  | doStopPlay
  | tick (d : Nat)
  | playbackEnd (isPlaying : Bool) (duration currentTime : ℚ)

/-- One step of the recorder screen: dispatch an operation against the
current state, returning the next state and the alerts it surfaced. -/
def step (s : AppState) : AppOp → AppState × List AlertMsg
  | .doRecord env => handleRecord s env
  | .doSave env => handleSave s env
  | .doCancel => handleCancel s
  | .toggleVideo b => ({ s with videoEnabled := b }, [])
  | .doPlay id => ({ s with playingId := some id }, [])
  | .doStopPlay => ({ s with playingId := none }, [])
  | .tick d =>
    ({ s with recorder := { s.recorder with durationMillis := some d } }, [])
  | .playbackEnd isPlaying dur ct =>
    ({ s with playingId := playbackAutoClear isPlaying dur ct s.playingId }, [])

/-- Whether the branch of `handleRecord` selected by the current recorder
state hits a throwing external call under `env`: in the start branch any of
`setAudioModeAsync`, `prepareToRecordAsync`, `record()`; in the pause branch
`pause()`; in the resume branch `record()`. -/
def recordCallFails (s : AppState) (env : RecordEnv) : Bool :=
  match s.recorder.durationMillis with
  | none => env.setModeErr.isSome || env.prepareErr.isSome || env.recordErr.isSome
  | some 0 => env.setModeErr.isSome || env.prepareErr.isSome || env.recordErr.isSome
  | some (_ + 1) =>
    if s.recorder.isRecording then env.pauseErr.isSome else env.recordErr.isSome

/-- The freshly mounted screen: video toggle on (its default), no
recordings, nothing playing, recorder untouched. -/
def demoIdle : AppState := ⟨true, [], none, ⟨none, false, none⟩⟩

/-- A `RecordEnv` in which every external call succeeds. -/
def noErrors : RecordEnv := ⟨none, none, none, none⟩

/-- A state in mid-capture with `d` elapsed milliseconds on the counter. -/
def readyState (d : Nat) : AppState := ⟨true, [], none, ⟨some d, true, none⟩⟩

/-- Concrete run for claim C1: press Record, let the counter reach 1500 ms,
press Save with every external call succeeding. -/
def c1Run : AppState :=
  (step (step (step demoIdle (.doRecord noErrors)).1 (.tick 1500)).1
    (.doSave ⟨none, some "file:///rec1.wav", none, 4096, 99⟩)).1

/-- Concrete run for claim C6: two full record/save cycles whose saves both
observe `Date.now() = 77` (the clock did not advance between them). -/
def c6Run : AppState :=
  (step (step (step (step (step (step demoIdle (.doRecord noErrors)).1 (.tick 2000)).1
    (.doSave ⟨none, some "file:///r1.wav", none, 4096, 77⟩)).1
    (.doRecord noErrors)).1 (.tick 3000)).1
    (.doSave ⟨none, some "file:///r2.wav", none, 8192, 77⟩)).1

/-- The head of the recordings list after a successful save carries
`id = Date.now()`; used to compare identifiers across two saves. -/
theorem savedHeadId (s : AppState) (env : SaveEnv) (d : Nat)
    (hd : s.recorder.durationMillis = some d) (hp : 0 < d)
    (hs : env.stopErr = none) (u : String) (hu : env.uriAfterStop = some u)
    (hf : env.fetchErr = none) (r : Recording)
    (hr : (handleSave s env).1.recordings.head? = some r) :
    r.id = env.now := by
  cases d with
  | zero => exact absurd hp (by simp)
  | succ k =>
    simp [handleSave, hd, hs, hu, hf] at hr
    rw [← hr]

/-- C1 (counterexample): start a recording, let the counter reach 1500 ms,
save with every external call succeeding. The saved Recording's duration is
2 seconds, while truncation of 1500 ms would give 1 second: the code uses
`Math.round`, not `Math.floor`, so the claim as stated is false. -/
theorem save_duration_not_floor :
    c1Run.recordings.map Recording.duration = [2] ∧ (1500 : Nat) / 1000 = 1 := by
  decide

/-- C1 (amended): for every elapsed duration d > 0, a save in which `stop()`
succeeds, the output uri is present, and the file fetch succeeds prepends a
Recording whose duration is `Math.round(d / 1000)` — that is, `(d + 500) / 1000`
in natural division (round half up), not `floor(d / 1000)`. -/
theorem save_duration_rounds (s : AppState) (env : SaveEnv) (d : Nat) (u : String)
    (hd : s.recorder.durationMillis = some d) (hp : 0 < d)
    (hs : env.stopErr = none) (hu : env.uriAfterStop = some u)
    (hf : env.fetchErr = none) :
    (handleSave s env).1.recordings =
      ({ id := env.now, uri := u, duration := (d + 500) / 1000,
         fileSize := (env.blobSize + 512) / 1024 } : Recording) :: s.recordings := by
  cases d with
  | zero => exact absurd hp (by simp)
  | succ k => simp [handleSave, hd, hs, hu, hf]

/-- Witness for C1's amended theorem at d = 1500 ms: the saved duration is
(1500 + 500) / 1000 = 2. -/
theorem save_duration_rounds_witness :
    0 < 1500 ∧
    (handleSave (readyState 1500) ⟨none, some "file:///c.wav", none, 2048, 5⟩).1.recordings =
      ({ id := 5, uri := "file:///c.wav", duration := 2, fileSize := 2 } : Recording) :: [] :=
  ⟨by decide,
   save_duration_rounds (readyState 1500) ⟨none, some "file:///c.wav", none, 2048, 5⟩
     1500 "file:///c.wav" rfl (by decide) rfl rfl rfl⟩

/-- C2: with a zero or undefined elapsed duration, `handleSave` returns the
state untouched (no Recording appended, recorder and list unchanged) and
surfaces exactly the "No recording" alert. -/
theorem save_zero_duration_alerts (s : AppState) (env : SaveEnv)
    (h : s.recorder.durationMillis = none ∨ s.recorder.durationMillis = some 0) :
    handleSave s env = (s, [⟨"No recording", "Please record something first"⟩]) := by
  rcases h with h | h <;> simp [handleSave, h]

/-- Witness for C2 on the freshly mounted screen (duration undefined). -/
theorem save_zero_duration_alerts_witness :
    demoIdle.recorder.durationMillis = none ∧
    handleSave demoIdle ⟨none, some "file:///w.wav", none, 1024, 7⟩ =
      (demoIdle, [⟨"No recording", "Please record something first"⟩]) :=
  ⟨rfl, save_zero_duration_alerts demoIdle ⟨none, some "file:///w.wav", none, 1024, 7⟩
    (Or.inl rfl)⟩

/-- C3: whenever the branch of `handleRecord` selected by the current state
hits a throwing external call (audio-mode configuration, prepare, record
start, or pause), the error is caught, exactly one "Recording failed" alert
is surfaced, and the whole application state is returned unchanged. -/
theorem record_error_atomic (s : AppState) (env : RecordEnv)
    (herr : recordCallFails s env = true) :
    (handleRecord s env).1 = s ∧
    ∃ msg, (handleRecord s env).2 = [⟨"Recording failed", msg⟩] := by
  obtain ⟨v, recs, pid, ⟨dm, ir, uri⟩⟩ := s
  obtain ⟨sm, pe, re, pa⟩ := env
  rcases dm with _ | (_ | d) <;> cases sm <;> cases pe <;> cases re <;> cases pa <;>
    cases ir <;> simp_all [recordCallFails, handleRecord, startRecording]

/-- Witness for C3: a throwing `setAudioModeAsync` on the idle screen. -/
theorem record_error_atomic_witness :
    recordCallFails demoIdle ⟨some "boom", none, none, none⟩ = true ∧
    ((handleRecord demoIdle ⟨some "boom", none, none, none⟩).1 = demoIdle ∧
     ∃ msg, (handleRecord demoIdle ⟨some "boom", none, none, none⟩).2 =
       [⟨"Recording failed", msg⟩]) :=
  ⟨by decide, record_error_atomic demoIdle ⟨some "boom", none, none, none⟩ (by decide)⟩

/-- C4: `formatTime` at 0, 65 and 3661 seconds (the last showing minutes do
not roll over into hours), and in general it renders `floor(s / 60)` and
`s % 60`, each left-padded with zeros to two digits, joined by a colon. -/
theorem formatTime_spec :
    formatTime 0 = "00:00" ∧ formatTime 65 = "01:05" ∧ formatTime 3661 = "61:01" ∧
    ∀ s : Nat, formatTime s =
      padStart 2 '0' (toString (s / 60)) ++ ":" ++ padStart 2 '0' (toString (s % 60)) :=
  ⟨by decide, by decide, by decide, fun _ => rfl⟩

/-- C5 (counterexample): an item marked playing whose player reports
duration 0 with position 0 has reached its duration, yet the active playing
id is left as `some 7` instead of being cleared — the code requires
`player.duration > 0` before clearing. -/
theorem playback_zero_duration_not_cleared :
    playbackAutoClear true 0 0 (some 7) = some 7 ∧ ((0 : ℚ) ≤ 0) := by
  constructor
  · rfl
  · exact le_refl 0

/-- C5 (amended): for the active playing item, once the player's duration is
positive and the playback position has reached it, the effect clears the
active playing id with no user action. -/
theorem playback_reached_end_clears (pid : Option Nat) (dur ct : ℚ)
    (hdur : 0 < dur) (hreach : dur ≤ ct) :
    playbackAutoClear true dur ct pid = none := by
  simp [playbackAutoClear, hdur, hreach]

/-- Witness for C5's amended theorem: a 2-second track at position 5. -/
theorem playback_reached_end_clears_witness :
    (0 : ℚ) < 2 ∧ (2 : ℚ) ≤ 5 ∧ playbackAutoClear true 2 5 (some 3) = none :=
  ⟨by norm_num, by norm_num,
   playback_reached_end_clears (some 3) 2 5 (by norm_num) (by norm_num)⟩

/-- C6 (counterexample): two full record/save cycles whose saves both read
`Date.now() = 77` produce two distinct Recordings (different uris) with the
same identifier 77 — nothing in the code enforces uniqueness beyond the
clock value. -/
theorem duplicate_ids_when_clock_stalls :
    c6Run.recordings.map Recording.id = [77, 77] ∧
    c6Run.recordings.map Recording.uri = ["file:///r2.wav", "file:///r1.wav"] := by
  decide

/-- C6 (amended): two successful saves whose `Date.now()` readings differ
produce Recordings with distinct identifiers (the identifier is exactly the
creation timestamp, so uniqueness holds iff the clock values differ). -/
theorem saved_ids_distinct (s1 s2 : AppState) (env1 env2 : SaveEnv)
    (d1 d2 : Nat) (u1 u2 : String) (r1 r2 : Recording)
    (hd1 : s1.recorder.durationMillis = some d1) (hp1 : 0 < d1)
    (hs1 : env1.stopErr = none) (hu1 : env1.uriAfterStop = some u1)
    (hf1 : env1.fetchErr = none)
    (hd2 : s2.recorder.durationMillis = some d2) (hp2 : 0 < d2)
    (hs2 : env2.stopErr = none) (hu2 : env2.uriAfterStop = some u2)
    (hf2 : env2.fetchErr = none)
    (hr1 : (handleSave s1 env1).1.recordings.head? = some r1)
    (hr2 : (handleSave s2 env2).1.recordings.head? = some r2)
    (hnow : env1.now ≠ env2.now) :
    r1.id ≠ r2.id := by
  rw [savedHeadId s1 env1 d1 hd1 hp1 hs1 u1 hu1 hf1 r1 hr1,
      savedHeadId s2 env2 d2 hd2 hp2 hs2 u2 hu2 hf2 r2 hr2]
  exact hnow

/-- Witness for C6's amended theorem: saves at clock values 1 and 2. -/
theorem saved_ids_distinct_witness :
    (1 : Nat) ≠ 2 ∧
    ({ id := 1, uri := "file:///a.wav", duration := 2, fileSize := 1 } : Recording).id ≠
    ({ id := 2, uri := "file:///b.wav", duration := 2, fileSize := 1 } : Recording).id :=
  ⟨by decide,
   saved_ids_distinct (readyState 2000) (readyState 2000)
     ⟨none, some "file:///a.wav", none, 1024, 1⟩ ⟨none, some "file:///b.wav", none, 1024, 2⟩
     2000 2000 "file:///a.wav" "file:///b.wav"
     ⟨1, "file:///a.wav", 2, 1⟩ ⟨2, "file:///b.wav", 2, 1⟩
     rfl (by decide) rfl rfl rfl rfl (by decide) rfl rfl rfl
     (by decide) (by decide) (by decide)⟩

/-- C7: no operation of the recorder screen reorders or mutates existing
list entries — every step leaves the recordings list unchanged or prepends
exactly one new Recording to the front, so the list stays most recent
first and previously saved Recordings are untouched. -/
theorem recordings_prepend_only (s : AppState) (op : AppOp) :
    (step s op).1.recordings = s.recordings ∨
    ∃ r, (step s op).1.recordings = r :: s.recordings := by
  obtain ⟨v, recs, pid, ⟨dm, ir, uri⟩⟩ := s
  cases op with
  | doRecord env =>
    obtain ⟨sm, pe, re, pa⟩ := env
    left
    rcases dm with _ | (_ | d) <;> cases sm <;> cases pe <;> cases re <;> cases pa <;>
      cases ir <;> simp [step, handleRecord, startRecording]
  | doSave env =>
    obtain ⟨se, ua, fe, bs, now⟩ := env
    rcases dm with _ | (_ | d)
    · left; simp [step, handleSave]
    · left; simp [step, handleSave]
    · cases se with
      | some msg => left; simp [step, handleSave]
      | none =>
        cases ua with
        | none => left; simp [step, handleSave]
        | some u =>
          cases fe with
          | some msg => left; simp [step, handleSave]
          | none =>
            right
            exact ⟨{ id := now, uri := u, duration := (d + 1 + 500) / 1000,
                     fileSize := (bs + 512) / 1024 }, by simp [step, handleSave]⟩
  | doCancel => left; rcases dm with _ | (_ | d) <;> simp [step, handleCancel]
  | toggleVideo b => left; rfl
  | doPlay id => left; rfl
  | doStopPlay => left; rfl
  | tick d => left; rfl
  | playbackEnd a b c => left; rfl

/-- C8: flipping the Video Presence toggle sets only the `videoEnabled`
boolean — the recordings list, the active playing id and the recorder state
are untouched, and no alert is surfaced. -/
theorem toggle_video_frame (s : AppState) (b : Bool) :
    (step s (.toggleVideo b)).1.videoEnabled = b ∧
    (step s (.toggleVideo b)).1.recordings = s.recordings ∧
    (step s (.toggleVideo b)).1.playingId = s.playingId ∧
    (step s (.toggleVideo b)).1.recorder = s.recorder ∧
    (step s (.toggleVideo b)).2 = [] :=
  ⟨rfl, rfl, rfl, rfl, rfl⟩

/-- C9: with a zero or undefined elapsed duration, `handleCancel` is a
no-op: the state is returned exactly as it was and no alert is raised. -/
theorem cancel_zero_duration_noop (s : AppState)
    (h : s.recorder.durationMillis = none ∨ s.recorder.durationMillis = some 0) :
    handleCancel s = (s, []) := by
  rcases h with h | h <;> simp [handleCancel, h]

/-- Witness for C9 on the freshly mounted screen (duration undefined). -/
theorem cancel_zero_duration_noop_witness :
    demoIdle.recorder.durationMillis = none ∧ handleCancel demoIdle = (demoIdle, []) :=
  ⟨rfl, cancel_zero_duration_noop demoIdle (Or.inl rfl)⟩

/-- C10: `normalizeAudioMimeType` maps the three tabled mime types as
listed, leaves every other string unchanged, and is idempotent. -/
theorem normalizeAudioMimeType_spec :
    normalizeAudioMimeType "audio/x-m4a" = "audio/m4a" ∧
    normalizeAudioMimeType "audio/x-wav" = "audio/wav" ∧
    normalizeAudioMimeType "audio/vnd.wave" = "audio/wav" ∧
    (∀ s : String, s ≠ "audio/x-m4a" → s ≠ "audio/x-wav" → s ≠ "audio/vnd.wave" →
      normalizeAudioMimeType s = s) ∧
    (∀ s : String,
      normalizeAudioMimeType (normalizeAudioMimeType s) = normalizeAudioMimeType s) := by
  refine ⟨by decide, by decide, by decide, ?_, ?_⟩
  · intro s h1 h2 h3
    simp [normalizeAudioMimeType, h1, h2, h3]
  · intro s
    by_cases h1 : s = "audio/x-m4a"
    · subst h1; decide
    by_cases h2 : s = "audio/x-wav"
    · subst h2; decide
    by_cases h3 : s = "audio/vnd.wave"
    · subst h3; decide
    simp [normalizeAudioMimeType, h1, h2, h3]

/-- Witness for C10 at concrete strings: an unmapped type is returned
unchanged and a mapped type is a fixed point after one application. -/
theorem normalizeAudioMimeType_spec_witness :
    normalizeAudioMimeType "text/plain" = "text/plain" ∧
    normalizeAudioMimeType (normalizeAudioMimeType "audio/x-m4a") =
      normalizeAudioMimeType "audio/x-m4a" :=
  ⟨normalizeAudioMimeType_spec.2.2.2.1 "text/plain" (by decide) (by decide) (by decide),
   normalizeAudioMimeType_spec.2.2.2.2 "audio/x-m4a"⟩

end AVConflict
